import Mathlib

/-!
Shallow embedding of the encrypted-HTTP upstream transport core of
ACEx86/dnscrypt-proxy (`dnscrypt-proxy/xtransport.go`), together with
theorems settling claims about its behaviour.

Modelling conventions:

* Go `time.Time` instants and `time.Duration` values are both modelled as
  `Int` (nanoseconds, exactly as Go durations are nanosecond counts).
  `time.Now()` and the random jitter drawn by `rand.Int63n` become explicit
  parameters of the embedded functions.
* A Go `net.IP` is modelled by its normalised textual representation
  (the key `copyIP.String()` under which `uniqueNormalizedIPs`
  deduplicates); a possibly-`nil` `net.IP` is an `Option` of that.
* Go maps guarded by mutexes (`cachedIPs.cache`, `altSupport.cache`)
  become association lists with replace-on-store semantics.
* Network and file-system effects (DNS resolution outcomes, the responses
  returned by `client.Do`) are inputs of the embedded functions.
* A Go runtime panic (nil-pointer dereference) is modelled by a dedicated
  `crash` result constructor.
-/

/-! ## Duration constants (xtransport.go lines 34-46) -/

/-- Nanoseconds in a Go `time.Minute`. -/
def nsMinute : Int := 60000000000

/-- Nanoseconds in a Go `time.Hour`. -/
def nsHour : Int := 3600000000000

/-- Constant `MinResolverIPTTL = 4 * time.Hour` (xtransport.go:40). -/
def MinResolverIPTTL : Int := 4 * nsHour

/-- Constant `SystemResolverIPTTL = 12 * time.Hour` (xtransport.go:39). -/
def SystemResolverIPTTL : Int := 12 * nsHour

/-- Constant `ResolverIPTTLMaxJitter = 15 * time.Minute` (xtransport.go:41). -/
def ResolverIPTTLMaxJitter : Int := 15 * nsMinute

/-- Constant `ExpiredCachedIPGraceTTL = 15 * time.Minute` (xtransport.go:42). -/
def ExpiredCachedIPGraceTTL : Int := 15 * nsMinute

/-! ## Address cache data model (xtransport.go lines 53-62) -/

/-- Normalised textual representation of a non-nil Go `net.IP`. -/
abbrev IPStr := String

/-- Structure `CachedIPItem` (xtransport.go:53-57): resolved IPs plus an
optional expiration instant and an optional `updatingUntil` instant. -/
structure CachedIPItem where
  ips : List IPStr
  expiration : Option Int
  updatingUntil : Option Int
deriving DecidableEq, Repr

/-- Map `cachedIPs.cache : map[string]*CachedIPItem` as an association list. -/
abbrev IPCache := List (String × CachedIPItem)

/-- Lookup `cache[host]` (comma-ok form). -/
def cacheFind : IPCache → String → Option CachedIPItem
  | [], _ => none
  | (h, it) :: rest, host => if h = host then some it else cacheFind rest host

/-- Assignment `cache[host] = item`: replace the entry or append it. -/
def cacheStore : IPCache → String → CachedIPItem → IPCache
  | [], host, it => [(host, it)]
  | (h, old) :: rest, host, it =>
    if h = host then (h, it) :: rest else (h, old) :: cacheStore rest host it

/-- Accumulator loop of `uniqueNormalizedIPs` (xtransport.go:138-157):
skip nil entries, deduplicate by the normalised key, keep first
occurrences in order (`seen` holds the kept keys, most recent first). -/
def uniqueNormalizedIPsAux : List (Option IPStr) → List IPStr → List IPStr
  | [], seen => seen.reverse
  | none :: rest, seen => uniqueNormalizedIPsAux rest seen
  | some ip :: rest, seen =>
    if ip ∈ seen then uniqueNormalizedIPsAux rest seen
    else uniqueNormalizedIPsAux rest (ip :: seen)

/-- Function `uniqueNormalizedIPs` (xtransport.go:138-157). -/
def uniqueNormalizedIPs (ips : List (Option IPStr)) : List IPStr :=
  uniqueNormalizedIPsAux ips []

/-- Method `saveCachedIPs` (xtransport.go:159-182). `now` models
`time.Now()`; `jitter` models the value drawn by
`rand.Int63n(int64(ResolverIPTTLMaxJitter))`, so `0 ≤ jitter <
ResolverIPTTLMaxJitter` in every reachable call. -/
def saveCachedIPs (cache : IPCache) (host : String) (ips : List (Option IPStr))
    (ttl : Int) (now jitter : Int) : IPCache :=
  let normalized := uniqueNormalizedIPs ips
  if normalized.isEmpty then cache
  else
    let expiration : Option Int :=
      if 0 ≤ ttl then
        let ttl1 := if ttl < MinResolverIPTTL then MinResolverIPTTL else ttl
        let ttl2 := ttl1 + jitter
        some (now + ttl2)
      else none
    cacheStore cache host { ips := normalized, expiration := expiration, updatingUntil := none }

/-- Method `markUpdatingCachedIP` (xtransport.go:192-203): when the entry
exists, set `updatingUntil := now + xTransport.timeout`. -/
def markUpdatingCachedIP (cache : IPCache) (host : String) (now timeout : Int) : IPCache :=
  match cacheFind cache host with
  | some item => cacheStore cache host { item with updatingUntil := some (now + timeout) }
  | none => cache

/-- Method `loadCachedIPs` (xtransport.go:205-236), returning
`(ips, expired, updating)`.  `time.Until(t) < 0` is `t - now < 0` and
`time.Until(t) > 0` is `t - now > 0`. -/
def loadCachedIPs (cache : IPCache) (host : String) (now : Int) :
    List IPStr × Bool × Bool :=
  match cacheFind cache host with
  | none => ([], false, false)
  | some item =>
    match item.expiration with
    | some e =>
      if e - now < 0 then
        match item.updatingUntil with
        | some u => if 0 < u - now then (item.ips, true, true) else (item.ips, true, false)
        | none => (item.ips, true, false)
      else (item.ips, false, false)
    | none => (item.ips, false, false)

/-- Outcome of `xTransport.resolve(host, is_STAMP, useIPv4, useIPv6)`
(xtransport.go:586-642), supplied as an input since it is network I/O:
the resolved IPs (possibly containing Go-nil entries), the answer TTL,
and the error. -/
structure ResolveOutcome where
  ips : List (Option IPStr)
  ttl : Int
  err : Option String
deriving DecidableEq, Repr

/-- Method `resolveAndUpdateCache` (xtransport.go:645-684).
`hasProxyDialer`/`hasHTTPProxyFunc` model the two proxy fields,
`hostParsesAsIP` models `ParseIP(host) != nil`, `res` the outcome of
the `resolve` call, `timeout` the transport timeout used by
`markUpdatingCachedIP`.  Returns the updated cache and the error. -/
def resolveAndUpdateCache (cache : IPCache) (host : String)
    (hasProxyDialer hasHTTPProxyFunc hostParsesAsIP : Bool)
    (res : ResolveOutcome) (now timeout jitter : Int) : IPCache × Option String :=
  if hasProxyDialer || hasHTTPProxyFunc then (cache, none)
  else if hostParsesAsIP then (cache, none)
  else
    let out := loadCachedIPs cache host now
    let cachedIPs := out.1
    let expired := out.2.1
    let updating := out.2.2
    if !cachedIPs.isEmpty && (!expired || updating) then (cache, none)
    else
      let cache1 := markUpdatingCachedIP cache host now timeout
      let ttl0 := if res.ttl < MinResolverIPTTL then MinResolverIPTTL else res.ttl
      let stale := (res.err.isSome || res.ips.isEmpty) && !cachedIPs.isEmpty
      let selected := if stale then cachedIPs.map some else res.ips
      let ttl1 := if stale then ExpiredCachedIPGraceTTL else ttl0
      let err1 := if stale then none else res.err
      match err1 with
      | some e => (cache1, some e)
      | none =>
        if selected.isEmpty then (cache1, none)
        else (saveCachedIPs cache1 host selected ttl1 now jitter, none)

/-! ## Helper predicates used to state cache claims -/

/-- Boolean form of `t` being an instant strictly in the past of `now`
(matching `time.Until(*t) < 0` on a present pointer, `false` on nil). -/
def pastB (t : Option Int) (now : Int) : Bool :=
  match t with
  | some e => e - now < 0
  | none => false

/-- Boolean form of `t` being an instant strictly in the future of `now`
(matching `time.Until(*t) > 0` on a present pointer, `false` on nil). -/
def futureB (t : Option Int) (now : Int) : Bool :=
  match t with
  | some u => 0 < u - now
  | none => false

/-! ## Basic cache lemmas -/

theorem cacheFind_cacheStore_self (cache : IPCache) (host : String) (it : CachedIPItem) :
    cacheFind (cacheStore cache host it) host = some it := by
  induction cache with
  | nil => simp [cacheStore, cacheFind]
  | cons hd rest ih =>
    obtain ⟨h, old⟩ := hd
    by_cases hh : h = host
    · simp [cacheStore, cacheFind, hh]
    · simp [cacheStore, cacheFind, hh, ih]

theorem uniqueNormalizedIPsAux_length (l : List (Option IPStr)) :
    ∀ seen : List IPStr, seen.length ≤ (uniqueNormalizedIPsAux l seen).length := by
  induction l with
  | nil => intro seen; simp [uniqueNormalizedIPsAux]
  | cons hd rest ih =>
    intro seen
    match hd with
    | none => simpa [uniqueNormalizedIPsAux] using ih seen
    | some ip =>
      simp only [uniqueNormalizedIPsAux]
      by_cases hmem : ip ∈ seen
      · simpa [hmem] using ih seen
      · have := ih (ip :: seen)
        simp only [hmem, if_false, List.length_cons] at this ⊢
        omega

theorem uniqueNormalizedIPs_cons_ne_nil (ip : IPStr) (rest : List (Option IPStr)) :
    uniqueNormalizedIPs (some ip :: rest) ≠ [] := by
  have h := uniqueNormalizedIPsAux_length rest [ip]
  intro hcontra
  simp only [uniqueNormalizedIPs, uniqueNormalizedIPsAux, List.not_mem_nil, if_false] at hcontra
  rw [hcontra] at h
  simp at h

theorem uniqueNormalizedIPs_map_some_ne_nil (ips : List IPStr) (h : ips ≠ []) :
    uniqueNormalizedIPs (ips.map some) ≠ [] := by
  match ips, h with
  | ip :: rest, _ => exact uniqueNormalizedIPs_cons_ne_nil ip (rest.map some)

/-- Reduction of `saveCachedIPs` when the normalised list is non-empty. -/
theorem saveCachedIPs_of_ne_nil (cache : IPCache) (host : String)
    (ips : List (Option IPStr)) (ttl now jitter : Int)
    (hne : uniqueNormalizedIPs ips ≠ []) :
    saveCachedIPs cache host ips ttl now jitter =
      cacheStore cache host
        { ips := uniqueNormalizedIPs ips,
          expiration :=
            if 0 ≤ ttl then
              some (now + ((if ttl < MinResolverIPTTL then MinResolverIPTTL else ttl) + jitter))
            else none,
          updatingUntil := none } := by
  have hne' : (uniqueNormalizedIPs ips).isEmpty = false := by
    cases hcase : uniqueNormalizedIPs ips with
    | nil => exact absurd hcase hne
    | cons a l => rfl
  simp only [saveCachedIPs, hne', Bool.false_eq_true, if_false]

/-! ## Claim C6: what `loadCachedIPs` reports -/

def c6Item : CachedIPItem :=
  { ips := ["203.0.113.7"], expiration := some 100, updatingUntil := some 50 }

def c6Cache : IPCache := [("example.test", c6Item)]

/-- Claim C6, counterexample.  The claim states that the `updating` result of
`loadCachedIPs` holds exactly when `updatingUntil` lies in the future,
independently of whether the entry has expired.  At time `now = 0` the entry
`c6Item` has `updatingUntil = 50` in the future, yet because its expiration
(100) has not passed, `loadCachedIPs` reports `updating = false`
(xtransport.go:226-234 only sets `updating` inside the expired branch). -/
theorem loadCachedIPs_updating_needs_expired :
    cacheFind c6Cache "example.test" = some c6Item ∧
    futureB c6Item.updatingUntil 0 = true ∧
    (loadCachedIPs c6Cache "example.test" 0).2.2 = false := by decide

/-- Claim C6, amended: for a host with a cached entry, `loadCachedIPs`
returns the cached ips, whether the stored expiration instant has passed
(`false` when no expiration is stored), and an `updating` flag that holds
exactly when the entry has expired AND its `updatingUntil` instant lies in
the future. -/
theorem loadCachedIPs_characterization (cache : IPCache) (host : String) (now : Int)
    (item : CachedIPItem) (h : cacheFind cache host = some item) :
    loadCachedIPs cache host now =
      (item.ips, pastB item.expiration now,
       pastB item.expiration now && futureB item.updatingUntil now) := by
  simp only [loadCachedIPs, h]
  cases hexp : item.expiration with
  | none => simp [pastB]
  | some e =>
    by_cases he : e - now < 0
    · cases hupd : item.updatingUntil with
      | none => simp [pastB, futureB, he]
      | some u =>
        by_cases hu : 0 < u - now
        · simp [pastB, futureB, he, hu]
        · simp [pastB, futureB, he, hu]
    · simp [pastB, futureB, he]

theorem loadCachedIPs_characterization_witness :
    loadCachedIPs c6Cache "example.test" 0 =
      (c6Item.ips, pastB c6Item.expiration 0,
       pastB c6Item.expiration 0 && futureB c6Item.updatingUntil 0) :=
  loadCachedIPs_characterization c6Cache "example.test" 0 c6Item (by decide)

/-! ## Claim C7: TTL clamping in `saveCachedIPs` -/

/-- Claim C7, counterexample.  The claim quantifies over every
`ttl < MinResolverIPTTL`, but for a negative ttl (here `-1`, which is
smaller than `MinResolverIPTTL`) `saveCachedIPs` stores NO expiration
instant at all (xtransport.go:165-172 only builds an expiration when
`ttl >= 0`), rather than one at least `MinResolverIPTTL` in the future. -/
theorem saveCachedIPs_negative_ttl_below_min :
    (-1 : Int) < MinResolverIPTTL ∧
    cacheFind (saveCachedIPs [] "doh.example" [some "203.0.113.7"] (-1) 0 0) "doh.example"
      = some { ips := ["203.0.113.7"], expiration := none, updatingUntil := none } := by
  decide

/-- Claim C7, amended: for every non-empty ip list and every ttl with
`0 ≤ ttl < MinResolverIPTTL`, `saveCachedIPs` stores the deduplicated ips
with an expiration at least `MinResolverIPTTL` and strictly less than
`MinResolverIPTTL + ResolverIPTTLMaxJitter` in the future, and clears the
`updatingUntil` marker. -/
theorem saveCachedIPs_clamps_small_ttl (cache : IPCache) (host : String) (ips : List IPStr)
    (ttl now jitter : Int) (hips : ips ≠ []) (h0 : 0 ≤ ttl) (hlt : ttl < MinResolverIPTTL)
    (hj0 : 0 ≤ jitter) (hj : jitter < ResolverIPTTLMaxJitter) :
    ∃ e : Int,
      cacheFind (saveCachedIPs cache host (ips.map some) ttl now jitter) host =
        some { ips := uniqueNormalizedIPs (ips.map some), expiration := some e,
               updatingUntil := none } ∧
      now + MinResolverIPTTL ≤ e ∧ e < now + MinResolverIPTTL + ResolverIPTTLMaxJitter := by
  refine ⟨now + (MinResolverIPTTL + jitter), ?_, by omega, by omega⟩
  rw [saveCachedIPs_of_ne_nil cache host (ips.map some) ttl now jitter
        (uniqueNormalizedIPs_map_some_ne_nil ips hips),
      if_pos h0, if_pos hlt]
  exact cacheFind_cacheStore_self cache host _

theorem saveCachedIPs_clamps_small_ttl_witness :
    ∃ e : Int,
      cacheFind (saveCachedIPs [] "resolver.example" (["198.51.100.4"].map some) 300000000000 0 1) "resolver.example"
        = some { ips := uniqueNormalizedIPs (["198.51.100.4"].map some), expiration := some e,
                 updatingUntil := none } ∧
      0 + MinResolverIPTTL ≤ e ∧ e < 0 + MinResolverIPTTL + ResolverIPTTLMaxJitter :=
  saveCachedIPs_clamps_small_ttl [] "resolver.example" ["198.51.100.4"] 300000000000 0 1
    (by decide) (by decide) (by decide) (by decide) (by decide)

/-! ## Claim C10: negative ttl stores a never-expiring entry -/

def c10Cache : IPCache :=
  [("stale.example", { ips := ["192.0.2.1"], expiration := some (-100), updatingUntil := none })]

/-- Claim C10, counterexample.  The claim quantifies over every ip list, but
for the empty list `saveCachedIPs` stores nothing (xtransport.go:160-163
returns early when the normalised list is empty); with a pre-existing
expired entry, a later lookup still reports `expired = true`, contradicting
"every subsequent lookup(host) reports expired == false". -/
theorem saveCachedIPs_empty_list_leaves_expired_entry :
    saveCachedIPs c10Cache "stale.example" [] (-1) 0 0 = c10Cache ∧
    (loadCachedIPs (saveCachedIPs c10Cache "stale.example" [] (-1) 0 0) "stale.example" 0).2.1
      = true := by
  decide

/-- Claim C10, amended: for every ip list whose normalised (non-nil,
deduplicated) form is non-empty, `saveCachedIPs` with a negative ttl stores
the deduplicated ips with no expiration instant and no `updatingUntil`
marker, and every subsequent lookup (at any later time) returns those ips
with `expired = false` (and `updating = false`). -/
theorem saveCachedIPs_negative_ttl_never_expires (cache : IPCache) (host : String)
    (ips : List (Option IPStr)) (ttl now jitter : Int) (httl : ttl < 0)
    (hne : uniqueNormalizedIPs ips ≠ []) :
    cacheFind (saveCachedIPs cache host ips ttl now jitter) host =
      some { ips := uniqueNormalizedIPs ips, expiration := none, updatingUntil := none } ∧
    ∀ later : Int,
      loadCachedIPs (saveCachedIPs cache host ips ttl now jitter) host later =
        (uniqueNormalizedIPs ips, false, false) := by
  have hexp : ¬ (0 ≤ ttl) := by omega
  rw [saveCachedIPs_of_ne_nil cache host ips ttl now jitter hne, if_neg hexp]
  refine ⟨cacheFind_cacheStore_self cache host _, fun later => ?_⟩
  simp [loadCachedIPs, cacheFind_cacheStore_self]

theorem saveCachedIPs_negative_ttl_never_expires_witness :
    cacheFind (saveCachedIPs c10Cache "stale.example" [some "192.0.2.9"] (-1) 0 0) "stale.example"
      = some { ips := uniqueNormalizedIPs [some "192.0.2.9"], expiration := none,
               updatingUntil := none } ∧
    loadCachedIPs (saveCachedIPs c10Cache "stale.example" [some "192.0.2.9"] (-1) 0 0)
        "stale.example" 99999999999999 = (uniqueNormalizedIPs [some "192.0.2.9"], false, false) :=
  ⟨(saveCachedIPs_negative_ttl_never_expires c10Cache "stale.example" [some "192.0.2.9"] (-1) 0 0
      (by decide) (by decide)).1,
   (saveCachedIPs_negative_ttl_never_expires c10Cache "stale.example" [some "192.0.2.9"] (-1) 0 0
      (by decide) (by decide)).2 99999999999999⟩

/-! ## Claim C3: stale-on-error reuse in `resolveAndUpdateCache` -/

def c3Stale : CachedIPItem :=
  { ips := ["203.0.113.7"], expiration := some (-10000000000), updatingUntil := none }

def c3Cache : IPCache := [("doh.example", c3Stale)]

def c3Failed : ResolveOutcome := { ips := [], ttl := 0, err := some "resolution failed" }

def c3Run : IPCache × Option String :=
  resolveAndUpdateCache c3Cache "doh.example" false false false c3Failed 0 30000000000 0

/-- Claim C3, counterexample.  With a stale cached entry (expired 10 s ago,
no update in flight) and a failed re-resolution, the Fetch does proceed
(`err = none`) and the stale IPs are re-saved — but the claim's assertion
that the entry "remains valid for ExpiredCachedIPGraceTTL = 15 minutes" is
false: `resolveAndUpdateCache` passes `ttl = ExpiredCachedIPGraceTTL` to
`saveCachedIPs` (xtransport.go:663-668), which clamps any ttl below
`MinResolverIPTTL` up to `MinResolverIPTTL` (xtransport.go:166-168), so the
stored expiration (with jitter 0) is 4 hours away and a lookup 30 minutes
later still reports `expired = false`. -/
theorem resolveAndUpdateCache_grace_ttl_overridden :
    c3Run.2 = none ∧
    cacheFind c3Run.1 "doh.example" =
      some { ips := ["203.0.113.7"], expiration := some MinResolverIPTTL,
             updatingUntil := none } ∧
    (loadCachedIPs c3Run.1 "doh.example" (2 * ExpiredCachedIPGraceTTL)).2.1 = false := by
  decide

/-- Claim C3, amended: for every host with a cached entry whose expiration
has passed and no update in flight, if re-resolution fails (or yields no
IPs) the stale cached IPs are reused and re-saved with requested ttl
`ExpiredCachedIPGraceTTL`, which `saveCachedIPs` clamps so that the entry
remains valid for at least `MinResolverIPTTL` (4 h) and strictly less than
`MinResolverIPTTL + ResolverIPTTLMaxJitter`; the Fetch proceeds instead of
failing. -/
theorem resolveAndUpdateCache_stale_reuse (cache : IPCache) (host : String)
    (res : ResolveOutcome) (now timeout jitter : Int) (item : CachedIPItem)
    (hfind : cacheFind cache host = some item) (hips : item.ips ≠ [])
    (hexp : pastB item.expiration now = true)
    (hupd : futureB item.updatingUntil now = false)
    (hfail : (res.err.isSome || res.ips.isEmpty) = true)
    (hj0 : 0 ≤ jitter) (hj : jitter < ResolverIPTTLMaxJitter) :
    (resolveAndUpdateCache cache host false false false res now timeout jitter).2 = none ∧
    ∃ e : Int,
      cacheFind (resolveAndUpdateCache cache host false false false res now timeout jitter).1
          host =
        some { ips := uniqueNormalizedIPs (item.ips.map some), expiration := some e,
               updatingUntil := none } ∧
      now + MinResolverIPTTL ≤ e ∧ e < now + MinResolverIPTTL + ResolverIPTTLMaxJitter := by
  have hload := loadCachedIPs_characterization cache host now item hfind
  have hipsE : item.ips.isEmpty = false := by
    cases hc : item.ips with
    | nil => exact absurd hc hips
    | cons a l => rfl
  have hmapE : (item.ips.map some).isEmpty = false := by
    cases hc : item.ips with
    | nil => exact absurd hc hips
    | cons a l => simp [hc]
  have hGrace0 : (0 : Int) ≤ ExpiredCachedIPGraceTTL := by decide
  have hGraceLt : ExpiredCachedIPGraceTTL < MinResolverIPTTL := by decide
  have hsave := saveCachedIPs_of_ne_nil (markUpdatingCachedIP cache host now timeout) host
    (item.ips.map some) ExpiredCachedIPGraceTTL now jitter
    (uniqueNormalizedIPs_map_some_ne_nil item.ips hips)
  simp only [resolveAndUpdateCache, Bool.or_self, Bool.false_eq_true, if_false, if_true, hload,
    hexp, hupd, hipsE, hfail, hmapE, Bool.not_false, Bool.not_true, Bool.false_or,
    Bool.and_false, Bool.true_and, Bool.and_true, hsave, if_pos hGrace0, if_pos hGraceLt]
  exact ⟨trivial, now + (MinResolverIPTTL + jitter), cacheFind_cacheStore_self _ host _,
    by omega, by omega⟩

theorem resolveAndUpdateCache_stale_reuse_witness :
    (resolveAndUpdateCache c3Cache "doh.example" false false false c3Failed 0 30000000000 0).2
      = none ∧
    ∃ e : Int,
      cacheFind
          (resolveAndUpdateCache c3Cache "doh.example" false false false c3Failed
            0 30000000000 0).1 "doh.example" =
        some { ips := uniqueNormalizedIPs (c3Stale.ips.map some), expiration := some e,
               updatingUntil := none } ∧
      0 + MinResolverIPTTL ≤ e ∧ e < 0 + MinResolverIPTTL + ResolverIPTTLMaxJitter :=
  resolveAndUpdateCache_stale_reuse c3Cache "doh.example" c3Failed 0 30000000000 0 c3Stale
    (by decide) (by decide) (by decide) (by decide) (by decide) (by decide) (by decide)

/-! ## TLS policy engine: `rebuildTransport` cipher-suite logic
(xtransport.go lines 246-249 and 334-386) -/

/-- TLS version constant `tls.VersionTLS12`. -/
def VersionTLS12 : Nat := 0x0303

/-- TLS version constant `tls.VersionTLS13`. -/
def VersionTLS13 : Nat := 0x0304

/-- Keys of the Go map literal `tls13` (xtransport.go:343-346). -/
def tls13Set : List Nat := [198, 199, 4865, 4866, 4867, 4868, 4869, 49332, 49333]

/-- Keys of the Go map literal `tlsSecure` (xtransport.go:347-350). -/
def tlsSecureSet : List Nat := [4865, 4866, 4868, 49195, 49196, 49199, 49200, 52392, 52393]

/-- Membership test `_, ok := tls13[CSuite]`. -/
def isTLS13 (c : Nat) : Bool := tls13Set.contains c

/-- Membership test `_, ok := tlsSecure[CSuite]`. -/
def isSecure (c : Nat) : Bool := tlsSecureSet.contains c

/-- Function `DefaultTLSCipherSuites` (xtransport.go:247-249): the numeric
IANA identifiers of ECDHE-ECDSA-CHACHA20-POLY1305, ECDHE-RSA-AES256-GCM,
ECDHE-RSA-AES128-GCM, ECDHE-ECDSA-AES256-GCM, ECDHE-ECDSA-AES128-GCM. -/
def DefaultTLSCipherSuites : List Nat := [52393, 49200, 49199, 49196, 49195]

/-- Slice operation `cs[i] = cs[len(cs)-1]; cs = cs[:len(cs)-1]`
(xtransport.go:357-358). -/
def swapRemove (cs : List Nat) (i : Nat) : List Nat :=
  (cs.set i (cs.getD (cs.length - 1) 0)).dropLast

theorem swapRemove_length (cs : List Nat) (i : Nat) :
    (swapRemove cs i).length = cs.length - 1 := by
  simp [swapRemove]

theorem getD_append_length (pre l : List Nat) (k : Nat) (d : Nat) :
    (pre ++ l).getD (pre.length + k) d = l.getD k d := by
  induction pre with
  | nil => simp
  | cons a pre ih => simpa [Nat.succ_add] using ih

theorem set_append_length (pre l : List Nat) (k : Nat) (v : Nat) :
    (pre ++ l).set (pre.length + k) v = pre ++ l.set k v := by
  induction pre with
  | nil => simp
  | cons a pre ih => simp [Nat.succ_add, ih]

theorem swapRemove_decomp_nil (pre : List Nat) (c : Nat) :
    swapRemove (pre ++ [c]) pre.length = pre := by
  unfold swapRemove
  have hlen : (pre ++ [c]).length - 1 = pre.length + 0 := by simp
  rw [hlen, getD_append_length pre [c] 0 0]
  show ((pre ++ [c]).set pre.length c).dropLast = pre
  have hset : (pre ++ [c]).set pre.length c = pre ++ [c] := by
    have h := set_append_length pre [c] 0 c
    simpa using h
  rw [hset, List.dropLast_concat]

theorem swapRemove_decomp_concat (pre : List Nat) (c : Nat) (ys : List Nat) (y : Nat) :
    swapRemove (pre ++ c :: (ys ++ [y])) pre.length = pre ++ y :: ys := by
  unfold swapRemove
  have h1 : (pre ++ c :: (ys ++ [y])).length - 1 = pre.length + (ys.length + 1) := by
    simp
  rw [h1, getD_append_length pre (c :: (ys ++ [y])) (ys.length + 1) 0]
  have h2 : (c :: (ys ++ [y])).getD (ys.length + 1) 0 = y := by
    have := getD_append_length ys [y] 0 0
    simpa [List.getD_cons_succ, Nat.add_zero] using this
  rw [h2]
  have h3 : (pre ++ c :: (ys ++ [y])).set pre.length y = pre ++ y :: (ys ++ [y]) := by
    have := set_append_length pre (c :: (ys ++ [y])) 0 y
    simpa using this
  rw [h3]
  have h4 : pre ++ y :: (ys ++ [y]) = (pre ++ y :: ys) ++ [y] := by simp
  rw [h4, List.dropLast_concat]

theorem take_get_drop (cs : List Nat) (i : Nat) (h : i < cs.length) :
    cs.take i ++ cs.get ⟨i, h⟩ :: cs.drop (i + 1) = cs := by
  induction cs generalizing i with
  | nil => simp at h
  | cons a l ih =>
    cases i with
    | zero => simp
    | succ n =>
      have hn : n < l.length := by simpa using h
      simpa using ih n hn

/-- Fuelled form of the filtering loop of `rebuildTransport`
(xtransport.go:351-366): iterate `Ciphers` over the suite list,
swap-removing entries outside `tlsSecure` and counting entries in `tls13`.
Each iteration either advances the index or shortens the list, so
`cs.length - i` bounds the remaining iterations; the fuel only makes the
recursion structural and never runs out on the wrapper below
(`filterSecureLoopF_spec` proves the result for every sufficient fuel). -/
def filterSecureLoopF : Nat → List Nat → Nat → Nat → List Nat × Nat × Nat
  | 0, cs, i, is13 => (cs, i, is13)
  | fuel + 1, cs, i, is13 =>
    if h : i < cs.length then
      if isSecure (cs.get ⟨i, h⟩) then
        filterSecureLoopF fuel cs (i + 1) (if isTLS13 (cs.get ⟨i, h⟩) then is13 + 1 else is13)
      else
        filterSecureLoopF fuel (swapRemove cs i) i is13
    else (cs, i, is13)

/-- Filtering loop of `rebuildTransport` (xtransport.go:351-366), with the
exact fuel it needs. -/
def filterSecureLoop (cs : List Nat) (i is13 : Nat) : List Nat × Nat × Nat :=
  filterSecureLoopF (cs.length - i) cs i is13

theorem drop_eq_get_cons (cs : List Nat) (i : Nat) (h : i < cs.length) :
    cs.drop i = cs.get ⟨i, h⟩ :: cs.drop (i + 1) := by
  induction cs generalizing i with
  | nil => simp at h
  | cons a l ih =>
    cases i with
    | zero => simp
    | succ n => simpa using ih n (by simpa using h)

theorem take_succ_get (cs : List Nat) (i : Nat) (h : i < cs.length) :
    cs.take (i + 1) = cs.take i ++ [cs.get ⟨i, h⟩] := by
  induction cs generalizing i with
  | nil => simp at h
  | cons a l ih =>
    cases i with
    | zero => simp
    | succ n => simpa using ih n (by simpa using h)

theorem swapRemoveIdx_nil (pre : List Nat) (c : Nat) (i : Nat) (hi : i = pre.length) :
    swapRemove (pre ++ [c]) i = pre := by
  rw [hi]; exact swapRemove_decomp_nil pre c

theorem swapRemoveIdx_concat (pre : List Nat) (c : Nat) (ys : List Nat) (y : Nat)
    (i : Nat) (hi : i = pre.length) :
    swapRemove (pre ++ c :: (ys ++ [y])) i = pre ++ y :: ys := by
  rw [hi]; exact swapRemove_decomp_concat pre c ys y


/-- Main characterisation of the swap-remove filtering loop: starting from
index `i`, the loop keeps the already-visited elements `cs.take i`
unchanged, replaces the rest by some permutation `r` of its
`isSecure`-filtered form, returns a final index equal to the final length,
and counts the `isTLS13` members of `r` on top of the incoming count. -/
theorem filterSecureLoopF_spec (fuel : Nat) :
    ∀ (cs : List Nat) (i is13 : Nat), cs.length - i ≤ fuel → i ≤ cs.length →
    ∃ r : List Nat,
      filterSecureLoopF fuel cs i is13 =
        (cs.take i ++ r, i + r.length, is13 + (r.filter isTLS13).length) ∧
      r.Perm ((cs.drop i).filter isSecure) := by
  induction fuel with
  | zero =>
    intro cs i is13 hfuel hi
    have hieq : i = cs.length := by omega
    refine ⟨[], ?_, ?_⟩
    · simp only [filterSecureLoopF]
      subst hieq
      simp
    · subst hieq
      simp
  | succ n ih =>
    intro cs i is13 hfuel hi
    by_cases h : i < cs.length
    case neg =>
      have hieq : i = cs.length := by omega
      refine ⟨[], ?_, ?_⟩
      · simp only [filterSecureLoopF]
        rw [dif_neg h]
        subst hieq
        simp
      · subst hieq
        simp
    case pos =>
      have hstep : filterSecureLoopF (n + 1) cs i is13 =
          if isSecure (cs.get ⟨i, h⟩) then
            filterSecureLoopF n cs (i + 1) (if isTLS13 (cs.get ⟨i, h⟩) then is13 + 1 else is13)
          else
            filterSecureLoopF n (swapRemove cs i) i is13 := by
        simp only [filterSecureLoopF]
        rw [dif_pos h]
      by_cases hsec : isSecure (cs.get ⟨i, h⟩)
      case pos =>
        by_cases h13 : isTLS13 (cs.get ⟨i, h⟩)
        case pos =>
          rw [hstep, if_pos hsec, if_pos h13]
          obtain ⟨r, hr, hperm⟩ := ih cs (i + 1) (is13 + 1) (by omega) (by omega)
          refine ⟨cs.get ⟨i, h⟩ :: r, ?_, ?_⟩
          · have e1 : cs.take (i + 1) ++ r = cs.take i ++ (cs.get ⟨i, h⟩ :: r) := by
              rw [take_succ_get cs i h, List.append_assoc]
              rfl
            have e2 : i + 1 + r.length = i + (cs.get ⟨i, h⟩ :: r).length := by
              simp only [List.length_cons]
              omega
            have e3 : is13 + 1 + (r.filter isTLS13).length
                = is13 + ((cs.get ⟨i, h⟩ :: r).filter isTLS13).length := by
              rw [List.filter_cons, if_pos h13]
              simp only [List.length_cons]
              omega
            rw [hr, e1, e2, e3]
          · rw [drop_eq_get_cons cs i h, List.filter_cons, if_pos hsec]
            exact hperm.cons _
        case neg =>
          rw [hstep, if_pos hsec, if_neg h13]
          obtain ⟨r, hr, hperm⟩ := ih cs (i + 1) is13 (by omega) (by omega)
          refine ⟨cs.get ⟨i, h⟩ :: r, ?_, ?_⟩
          · have e1 : cs.take (i + 1) ++ r = cs.take i ++ (cs.get ⟨i, h⟩ :: r) := by
              rw [take_succ_get cs i h, List.append_assoc]
              rfl
            have e2 : i + 1 + r.length = i + (cs.get ⟨i, h⟩ :: r).length := by
              simp only [List.length_cons]
              omega
            have e3 : is13 + (r.filter isTLS13).length
                = is13 + ((cs.get ⟨i, h⟩ :: r).filter isTLS13).length := by
              rw [List.filter_cons, if_neg h13]
            rw [hr, e1, e2, e3]
          · rw [drop_eq_get_cons cs i h, List.filter_cons, if_pos hsec]
            exact hperm.cons _
      case neg =>
        rw [hstep, if_neg hsec]
        obtain ⟨r, hr, hperm⟩ := ih (swapRemove cs i) i is13
          (by rw [swapRemove_length]; omega) (by rw [swapRemove_length]; omega)
        have hlenpre : (cs.take i).length = i := by
          rw [List.length_take]; omega
        have hcs : cs.take i ++ cs.get ⟨i, h⟩ :: cs.drop (i + 1) = cs := take_get_drop cs i h
        obtain hrest | ⟨ys, y, hrest⟩ := List.eq_nil_or_concat (cs.drop (i + 1))
        · rw [hrest] at hcs
          have hswap : swapRemove cs i = cs.take i := by
            conv_lhs => rw [← hcs]
            exact swapRemoveIdx_nil (cs.take i) (cs.get ⟨i, h⟩) i hlenpre.symm
          have htake : (swapRemove cs i).take i = cs.take i := by
            rw [hswap]
            exact List.take_of_length_le (le_of_eq hlenpre)
          have hdropsw : (swapRemove cs i).drop i = [] := by
            rw [hswap]
            exact List.drop_eq_nil_iff.mpr (le_of_eq hlenpre)
          refine ⟨r, ?_, ?_⟩
          · rw [hr, htake]
          · have hrnil : r.Perm [] := by
              rw [hdropsw] at hperm
              simpa using hperm
            rw [drop_eq_get_cons cs i h, hrest, List.filter_cons, if_neg hsec]
            simpa using hrnil
        · rw [List.concat_eq_append] at hrest
          rw [hrest] at hcs
          have hswap : swapRemove cs i = cs.take i ++ y :: ys := by
            conv_lhs => rw [← hcs]
            exact swapRemoveIdx_concat (cs.take i) (cs.get ⟨i, h⟩) ys y i hlenpre.symm
          have htake : (swapRemove cs i).take i = cs.take i := by
            rw [hswap]
            exact List.take_left' hlenpre
          have hdropsw : (swapRemove cs i).drop i = y :: ys := by
            rw [hswap]
            exact List.drop_left' hlenpre
          refine ⟨r, ?_, ?_⟩
          · rw [hr, htake]
          · rw [hdropsw] at hperm
            rw [drop_eq_get_cons cs i h, hrest, List.filter_cons, if_neg hsec]
            refine hperm.trans ?_
            rw [List.filter_append]
            have h1 : (y :: ys).filter isSecure = [y].filter isSecure ++ ys.filter isSecure := by
              by_cases hy : isSecure y <;> simp [List.filter_cons, hy]
            rw [h1]
            exact List.perm_append_comm

/-- Specification of `filterSecureLoop` at its call site in
`rebuildTransport` (index 0, count 0): the loop returns some permutation of
the `isSecure`-filtered list together with its length and its `isTLS13`
count. -/
theorem filterSecureLoop_spec (cs : List Nat) :
    ∃ r : List Nat,
      filterSecureLoop cs 0 0 = (r, r.length, (r.filter isTLS13).length) ∧
      r.Perm (cs.filter isSecure) := by
  obtain ⟨r, hr, hperm⟩ := filterSecureLoopF_spec (cs.length - 0) cs 0 0 le_rfl (Nat.zero_le _)
  refine ⟨r, ?_, ?_⟩
  · simpa [filterSecureLoop] using hr
  · simpa using hperm

/-- TLS-policy fields of `XTransport` (xtransport.go:69-101) that
`rebuildTransport` reads and writes. -/
structure TLSPolicy where
  MaxVersion : Nat
  tlsCipherSuite : Option (List Nat)
  keepCipherSuite : Bool
  CSHandleError : Int
deriving DecidableEq, Repr

/-- The `MaxVersion`/`CipherSuites` fields of the `tls.Config` built by
`rebuildTransport`. -/
structure TLSClientConfig where
  MaxVersion : Nat
  CipherSuites : Option (List Nat)
deriving DecidableEq, Repr

/-- TLS-version and cipher-suite logic of `rebuildTransport`
(xtransport.go:334-386): first `MaxVersion` is set from `CSHandleError == 3`
(lines 334-340); then, when `keepCipherSuite` is set and an explicit
non-empty cipher-suite list is configured, the list is filtered to
`tlsSecure` by the swap-remove loop (lines 351-366); if a remaining entry
is outside `tls13` the transport downgrades to TLS 1.2 offering the
filtered list (lines 367-371), otherwise it replaces the list with
`DefaultTLSCipherSuites`, sets `CSHandleError = 2` and downgrades (lines
372-380); with `keepCipherSuite` set but no usable list, `CSHandleError == 0`
forces TLS 1.2 with `CSHandleError = 2` (lines 381-385). -/
def rebuildTransportTLS (st : TLSPolicy) : TLSPolicy × TLSClientConfig :=
  let mv0 := if st.CSHandleError = 3 then VersionTLS12 else VersionTLS13
  if st.keepCipherSuite then
    match st.tlsCipherSuite with
    | some cs =>
      if 0 < cs.length then
        let out := filterSecureLoop cs 0 0
        if out.2.2 ≠ out.2.1 then
          ({ st with MaxVersion := VersionTLS12, tlsCipherSuite := some out.1 },
           { MaxVersion := VersionTLS12, CipherSuites := some out.1 })
        else
          ({ st with
              MaxVersion := VersionTLS12
              tlsCipherSuite := some DefaultTLSCipherSuites
              CSHandleError := 2 },
           { MaxVersion := VersionTLS12, CipherSuites := some DefaultTLSCipherSuites })
      else
        if st.CSHandleError = 0 then
          ({ st with MaxVersion := VersionTLS12, CSHandleError := 2 },
           { MaxVersion := VersionTLS12, CipherSuites := none })
        else
          ({ st with MaxVersion := mv0 }, { MaxVersion := mv0, CipherSuites := none })
    | none =>
      if st.CSHandleError = 0 then
        ({ st with MaxVersion := VersionTLS12, CSHandleError := 2 },
         { MaxVersion := VersionTLS12, CipherSuites := none })
      else
        ({ st with MaxVersion := mv0 }, { MaxVersion := mv0, CipherSuites := none })
  else ({ st with MaxVersion := mv0 }, { MaxVersion := mv0, CipherSuites := none })

/-! ## Claim C4: explicit non-TLS-1.3 cipher suites force TLS 1.2 on rebuild -/

def c4State : TLSPolicy :=
  { MaxVersion := VersionTLS13, tlsCipherSuite := some [49195], keepCipherSuite := false,
    CSHandleError := 0 }

/-- Claim C4, counterexample.  The claim quantifies over every transport
state with an explicit cipher-suite list containing a non-TLS-1.3 entry,
but the whole filtering-and-downgrade block of `rebuildTransport` runs only
under `keepCipherSuite == true` (xtransport.go:341), a flag the
configuration loader sets only for `force_tls12`.  For `c4State`
(explicit list `[49195]`, a secure non-TLS-1.3 suite, with
`keepCipherSuite = false` and `CSHandleError = 0`) the rebuild leaves
`MaxVersion = TLS 1.3` and offers no cipher list at all. -/
theorem rebuildTransportTLS_no_downgrade_without_keep :
    isTLS13 49195 = false ∧ isSecure 49195 = true ∧
    c4State.tlsCipherSuite = some [49195] ∧
    (rebuildTransportTLS c4State).1.MaxVersion = VersionTLS13 ∧
    (rebuildTransportTLS c4State).2.MaxVersion = VersionTLS13 ∧
    (rebuildTransportTLS c4State).2.CipherSuites = none ∧
    VersionTLS13 ≠ VersionTLS12 := by decide

/-- Claim C4, amended: for every transport state with `keepCipherSuite`
set and an explicit cipher-suite list that contains at least one entry
which survives the `TLS_SECURE` filter and is not a TLS 1.3 suite, the
rebuild leaves the transport with `MaxVersion = TLS 1.2` and offers the
configured list filtered to `TLS_SECURE` (up to the reordering produced by
the swap-remove loop). -/
theorem rebuildTransportTLS_downgrade (st : TLSPolicy) (cs : List Nat)
    (hkeep : st.keepCipherSuite = true) (hcs : st.tlsCipherSuite = some cs)
    (hbad : ∃ c ∈ cs, isSecure c = true ∧ isTLS13 c = false) :
    (rebuildTransportTLS st).1.MaxVersion = VersionTLS12 ∧
    (rebuildTransportTLS st).2.MaxVersion = VersionTLS12 ∧
    ∃ l : List Nat,
      (rebuildTransportTLS st).2.CipherSuites = some l ∧
      (rebuildTransportTLS st).1.tlsCipherSuite = some l ∧
      l.Perm (cs.filter isSecure) := by
  obtain ⟨c, hcmem, hcsec, hc13⟩ := hbad
  have hlen : 0 < cs.length := List.length_pos.mpr (List.ne_nil_of_mem hcmem)
  obtain ⟨r, hloop, hperm⟩ := filterSecureLoop_spec cs
  have hcr : c ∈ r := hperm.mem_iff.mpr (List.mem_filter.mpr ⟨hcmem, hcsec⟩)
  have hne : (r.filter isTLS13).length ≠ r.length := by
    intro heq
    have hall := List.filter_length_eq_length.mp heq
    have hct := hall c hcr
    rw [hc13] at hct
    exact Bool.false_ne_true hct
  have hred : rebuildTransportTLS st =
      ({ st with MaxVersion := VersionTLS12, tlsCipherSuite := some r },
       { MaxVersion := VersionTLS12, CipherSuites := some r }) := by
    simp [rebuildTransportTLS, hkeep, hcs, hlen, hloop, hne]
  rw [hred]
  exact ⟨rfl, rfl, r, rfl, rfl, hperm⟩

def c4KeepState : TLSPolicy :=
  { MaxVersion := VersionTLS13
    tlsCipherSuite := some [4865, 49200, 7]
    keepCipherSuite := true
    CSHandleError := 0 }

theorem rebuildTransportTLS_downgrade_witness :
    (rebuildTransportTLS c4KeepState).1.MaxVersion = VersionTLS12 ∧
    (rebuildTransportTLS c4KeepState).2.MaxVersion = VersionTLS12 ∧
    ∃ l : List Nat,
      (rebuildTransportTLS c4KeepState).2.CipherSuites = some l ∧
      (rebuildTransportTLS c4KeepState).1.tlsCipherSuite = some l ∧
      l.Perm (([4865, 49200, 7] : List Nat).filter isSecure) :=
  rebuildTransportTLS_downgrade c4KeepState [4865, 49200, 7]
    (by decide) (by decide) ⟨49200, by decide, by decide, by decide⟩

/-! ## Go string helpers used by `Fetch`
(`strings.Contains`, `strings.HasPrefix`/`TrimPrefix`/`TrimSuffix`,
`strings.TrimSpace`, `strings.Split`, `strconv.ParseUint`) -/

/-- Whether the first character list is an initial segment of the second. -/
def leadsChars : List Char → List Char → Bool
  | [], _ => true
  | _ :: _, [] => false
  | a :: as, b :: bs => a == b && leadsChars as bs

/-- Whether `sub` occurs contiguously inside the second list. -/
def occursInChars (sub : List Char) : List Char → Bool
  | [] => leadsChars sub []
  | b :: bs => leadsChars sub (b :: bs) || occursInChars sub bs

/-- Go `strings.Contains(s, sub)`. -/
def goContains (s sub : String) : Bool := occursInChars sub.toList s.toList

/-- Go `strings.HasPrefix(s, pre)`. -/
def goStartsWith (s pre : String) : Bool := leadsChars pre.toList s.toList

/-- Go `strings.TrimPrefix(s, pre)`. -/
def goTrimLead (s pre : String) : String :=
  if goStartsWith s pre then String.mk (s.toList.drop pre.toList.length) else s

/-- Go `strings.HasSuffix(s, suf)`. -/
def goEndsWith (s suf : String) : Bool := leadsChars suf.toList.reverse s.toList.reverse

/-- Go `strings.TrimSuffix(s, suf)`. -/
def goTrimTail (s suf : String) : String :=
  if goEndsWith s suf then String.mk (s.toList.take (s.toList.length - suf.toList.length)) else s

/-- Drop leading whitespace characters from a character list. -/
def dropLeadSpaces : List Char → List Char
  | [] => []
  | c :: rest => if c.isWhitespace then dropLeadSpaces rest else c :: rest

/-- Go `strings.TrimSpace(s)`. -/
def goTrimSpace (s : String) : String :=
  String.mk ((dropLeadSpaces (dropLeadSpaces s.toList).reverse).reverse)

/-- Splitting loop of Go `strings.Split(s, sep)` for a one-character
separator, keeping empty fields. -/
def goSplitCharAux (c : Char) : List Char → List Char → List (List Char)
  | [], acc => [acc.reverse]
  | x :: xs, acc =>
    if x == c then acc.reverse :: goSplitCharAux c xs [] else goSplitCharAux c xs (x :: acc)

/-- Go `strings.Split(s, sep)` for a one-character separator. -/
def goSplitChar (c : Char) (s : String) : List String :=
  (goSplitCharAux c s.toList []).map String.mk

/-- Decimal-accumulation loop of `strconv.ParseUint(s, 10, _)`. -/
def parseDecAux : List Char → Nat → Option Nat
  | [], acc => some acc
  | c :: rest, acc =>
    if c.isDigit then parseDecAux rest (acc * 10 + (c.toNat - 48)) else none

/-- Go `strconv.ParseUint(s, 10, 16)` (success iff the string is a
non-empty all-digit string whose value fits in 16 bits). -/
def goParseUint16 (s : String) : Option Nat :=
  match s.toList with
  | [] => none
  | cs =>
    match parseDecAux cs 0 with
    | some v => if v < 65536 then some v else none
    | none => none

/-! ## Fetch data model (xtransport.go lines 686-1103) -/

/-- Modelled from the spec: `MaxDNSPacketSize = 4096` (spec section 6); the
constant is defined in a repository file outside the provided sources. -/
def MaxDNSPacketSize : Nat := 4096

/-- Modelled from the spec: response bodies are read through
`io.LimitReader(..., MaxHTTPBodyLength)` (spec section 4.6 step 15); the
constant is defined in a repository file outside the provided sources and
the spec does not give its value, so the model fixes it at 4 MiB.  No claim
depends on the value. -/
def MaxHTTPBodyLength : Nat := 4194304

/-- The fields of `tls.ConnectionState` that `Fetch` reads. -/
structure TLSConnState where
  Version : Nat
  CipherSuite : Nat
deriving DecidableEq, Repr

/-- The fields of `*http.Response` that `Fetch` reads.  `altSvc` is
`resp.Header["Alt-Svc"]` (with `none` for an absent key), `contentEncoding`
is `resp.Header.Get("Content-Encoding")`, `Body` is the byte stream
(`none` for a nil body). -/
structure HTTPResponse where
  StatusCode : Int
  Status : String
  Proto : String
  TLS : Option TLSConnState
  contentEncoding : String
  altSvc : Option (List String)
  Body : Option (List Nat)
deriving DecidableEq, Repr

/-- The five return values of `Fetch` (rtt included). -/
structure FetchReturn where
  body : Option (List Nat)
  statusCode : Int
  tls : Option TLSConnState
  rtt : Int
  err : Option String
deriving DecidableEq, Repr

/-- Result of running (part of) `Fetch`: either a normal five-value return
or a Go runtime panic (nil-pointer dereference). -/
inductive FetchOutcome where
  | ret : FetchReturn → FetchOutcome
  | crash : String → FetchOutcome
deriving DecidableEq, Repr

/-- Map `altSupport.cache : map[string]uint16` as an association list. -/
abbrev AltCache := List (String × Nat)

/-- Lookup `altSupport.cache[url.Host]` (comma-ok form). -/
def altFind : AltCache → String → Option Nat
  | [], _ => none
  | (h, p) :: rest, host => if h = host then some p else altFind rest host

/-- Assignment `altSupport.cache[url.Host] = p`. -/
def altStore : AltCache → String → Nat → AltCache
  | [], host, p => [(host, p)]
  | (h, old) :: rest, host, p =>
    if h = host then (h, p) :: rest else (h, old) :: altStore rest host p

/-- Outcome of the client-selection block of `Fetch` (xtransport.go:714-740):
whether the request is sent over the HTTP/3 client (`useH3`, i.e.
`client.Transport == h3Transport`), the `is_http2` flag, and
`hasAltSupport`. -/
structure ClientChoice where
  useH3 : Bool
  is_http2 : Bool
  hasAltSupport : Bool
deriving DecidableEq, Repr

/-- Client-selection block of `Fetch` (xtransport.go:714-740). -/
def fetchChooseClient (http3Enabled h3Built http3Probe : Bool)
    (altCache : AltCache) (urlHost : String) (port : Nat) : ClientChoice :=
  if http3Enabled && h3Built then
    if http3Probe then { useH3 := true, is_http2 := false, hasAltSupport := false }
    else
      match altFind altCache urlHost with
      | some altPort =>
        if 0 < altPort then
          if altPort = port then { useH3 := true, is_http2 := false, hasAltSupport := true }
          else { useH3 := false, is_http2 := false, hasAltSupport := false }
        else { useH3 := false, is_http2 := false, hasAltSupport := true }
      | none => { useH3 := false, is_http2 := false, hasAltSupport := false }
  else { useH3 := false, is_http2 := true, hasAltSupport := false }

/-- Protocol-consistency test of `Fetch` (xtransport.go:852): reject when
the response protocol string contains "/1", or contains "/3" while
`is_http2`, or contains "/2" while not `is_http2`. -/
def protocolMismatch (proto : String) (is_http2 : Bool) : Bool :=
  goContains proto "/1" || (goContains proto "/3" && is_http2) ||
    (goContains proto "/2" && !is_http2)

/-- Inner token loop of the Alt-Svc parser (xtransport.go:976-990):
scan the `;`-separated tokens of one header value, stopping at the first
`h3=":N"` token that parses; the 8-header/16-token bounds break the scan. -/
def parseAltSvcTokens : List String → Nat → Nat → Nat → Nat
  | [], _, _, altPort => altPort
  | v :: rest, j, i, altPort =>
    if 8 ≤ i ∨ 16 ≤ j then altPort
    else
      let v1 := goTrimSpace v
      if goStartsWith v1 "h3=\":" then
        match goParseUint16 (goTrimTail (goTrimLead v1 "h3=\":") "\"") with
        | some p => p
        | none => parseAltSvcTokens rest (j + 1) i altPort
      else parseAltSvcTokens rest (j + 1) i altPort

/-- Outer header loop of the Alt-Svc parser (xtransport.go:975-991). -/
def parseAltSvcHeaders : List String → Nat → Nat → Nat
  | [], _, altPort => altPort
  | xalt :: rest, i, altPort =>
    parseAltSvcHeaders rest (i + 1) (parseAltSvcTokens (goSplitChar ';' xalt) 0 i altPort)

/-- Negotiated-cipher allow-string for TLS 1.3 (xtransport.go:1009). -/
def tls13SafeStr : String := "4865 4866 4868"

/-- Negotiated-cipher allow-string for TLS 1.2 (xtransport.go:1010). -/
def tls12SafeStr : String := "52393 49200 49199 49196 49195"

/-- TLS error-handling block of `Fetch` (xtransport.go:877-952), entered
when the request ended with an error.  Returns the updated policy, client
config and `hasTLSConnected` counter; the Fetch itself then returns the
error unchanged (xtransport.go:953).  The log-only branches leave the
state unchanged. -/
def handleTLSError (st : TLSPolicy) (cfg : TLSClientConfig) (hasTLS : Int)
    (resp : Option HTTPResponse) (errMsg : String) (TLSVersion : Nat)
    (rtt timeout : Int) : TLSPolicy × TLSClientConfig × Int :=
  if st.MaxVersion = VersionTLS13 ∧ TLSVersion = VersionTLS13 then
    if goContains errMsg "handshake failure" then
      if st.CSHandleError = 0 ∧ rtt < timeout then
        let st1 := if st.tlsCipherSuite = none then { st with CSHandleError := 3 }
          else { st with CSHandleError := 4 }
        let st2 := { st1 with keepCipherSuite := true }
        let out := rebuildTransportTLS st2
        (out.1, out.2, hasTLS)
      else (st, cfg, hasTLS)
    else (st, cfg, hasTLS)
  else if st.MaxVersion = VersionTLS12 ∧ TLSVersion = VersionTLS12 then
    if st.keepCipherSuite then
      if (goContains errMsg "handshake failure" ∨ goContains errMsg "tls: error decoding message")
          ∧ rtt < timeout then
        let step : TLSPolicy × TLSClientConfig × Int :=
          if st.CSHandleError = 0 then
            ({ st with
                CSHandleError := 1
                tlsCipherSuite := some DefaultTLSCipherSuites
                keepCipherSuite := true }, cfg, hasTLS)
          else if st.CSHandleError = 1 then
            if hasTLS < 3 then
              ({ st with CSHandleError := 0, keepCipherSuite := false }, cfg, hasTLS)
            else (st, cfg, hasTLS)
          else if st.CSHandleError = 2 then
            ({ st with
                CSHandleError := 1
                tlsCipherSuite := some DefaultTLSCipherSuites
                keepCipherSuite := true }, cfg, 0)
          else if st.CSHandleError = 3 then
            match resp with
            | some r =>
              match r.TLS with
              | some t =>
                if st.tlsCipherSuite = none then
                  ({ st with
                      tlsCipherSuite := some [t.CipherSuite]
                      keepCipherSuite := true
                      CSHandleError := 2 },
                   { cfg with CipherSuites := some [t.CipherSuite] }, 0)
                else (st, cfg, hasTLS)
              | none => (st, cfg, hasTLS)
            | none => (st, cfg, hasTLS)
          else if st.CSHandleError = 4 then
            ({ st with tlsCipherSuite := some DefaultTLSCipherSuites, keepCipherSuite := true },
             cfg, hasTLS)
          else (st, cfg, hasTLS)
        let out := rebuildTransportTLS step.1
        (out.1, out.2, step.2.2)
      else (st, cfg, hasTLS)
    else (st, cfg, hasTLS)
  else (st, cfg, hasTLS)

/-- Body-decoding block of `Fetch` (xtransport.go:1051-1102), reached with
`ignore_response == false`.  `gunzip` models the external
`gzip.NewReader`+`io.ReadAll` pipeline on the (length-limited) raw body;
`Body.Close()` errors are not modelled. -/
def fetchBodyDecode (r : HTTPResponse) (t : TLSConnState)
    (st : TLSPolicy) (cfg : TLSClientConfig) (hasTLS : Int)
    (statusCode : Int) (rtt : Int) (compress : Bool) (altCache : AltCache)
    (gunzip : List Nat → Except String (List Nat)) :
    FetchOutcome × TLSPolicy × TLSClientConfig × Int × AltCache :=
  match r.Body with
  | some bodyBytes =>
    if compress ∧ r.contentEncoding = "gzip" then
      match gunzip (bodyBytes.take MaxHTTPBodyLength) with
      | Except.error e =>
        (FetchOutcome.ret
          { body := none, statusCode := statusCode, tls := some t, rtt := rtt, err := some e },
         st, cfg, hasTLS, altCache)
      | Except.ok decoded =>
        (FetchOutcome.ret
          { body := some (decoded.take MaxHTTPBodyLength), statusCode := statusCode,
            tls := some t, rtt := rtt, err := none },
         st, cfg, hasTLS, altCache)
    else
      let encLen := r.contentEncoding.length
      let compresserr : Option String :=
        if ¬compress ∧ 0 < encLen then some "response has compression without requesting it"
        else if compress ∧ 0 < encLen then some "compress is set but response has incorrect encoding"
        else if compress then some "compress is set but response has no encoding"
        else none
      match compresserr with
      | some ce =>
        (FetchOutcome.ret { body := none, statusCode := 0, tls := none, rtt := 0, err := some ce },
         st, cfg, hasTLS, altCache)
      | none =>
        (FetchOutcome.ret
          { body := some (bodyBytes.take MaxHTTPBodyLength), statusCode := statusCode,
            tls := some t, rtt := rtt, err := none },
         st, cfg, hasTLS, altCache)
  | none =>
    (FetchOutcome.ret
      { body := none, statusCode := statusCode, tls := none, rtt := rtt, err := some "failed body" },
     st, cfg, hasTLS, altCache)

/-- Post-send phase of `Fetch` from the status/protocol checks to the end
(xtransport.go:845-1103), given the response/error pair the send (or the
HTTP/2 retry) produced.  `h3_dropped` tells whether the HTTP/2 retry was
taken.  Returns the outcome together with the updated TLS policy, client
config, `hasTLSConnected` counter and Alt-Svc cache. -/
def fetchAfterSend (st : TLSPolicy) (cfg : TLSClientConfig) (hasTLS : Int)
    (Drop13 Drop12 : Bool)
    (http3Enabled h3Built http3Probe : Bool)
    (choice : ClientChoice) (h3_dropped : Bool)
    (altCache : AltCache) (urlHost : String) (port : Nat)
    (compress is_STAMP : Bool) (timeout : Int)
    (resp : Option HTTPResponse) (err0 : Option String) (rtt : Int)
    (gunzip : List Nat → Except String (List Nat)) :
    FetchOutcome × TLSPolicy × TLSClientConfig × Int × AltCache :=
  -- xtransport.go:845-851: status classification
  let statusCode : Int :=
    match resp with
    | some r => if r.StatusCode < 200 ∨ 299 < r.StatusCode then 503 else r.StatusCode
    | none => 503
  let err1 : Option String :=
    match resp with
    | some r => if r.StatusCode < 200 ∨ 299 < r.StatusCode then some r.Status else err0
    | none => if err0 = none then some "webserver returned an error" else err0
  -- xtransport.go:852-855: protocol-consistency check (immediate return)
  let pm : Bool :=
    match resp with
    | some r => protocolMismatch r.Proto choice.is_http2
    | none => false
  if pm then
    (FetchOutcome.ret
      { body := none, statusCode := 0, tls := none, rtt := 0,
        err := some "request failed: Protocol miss match" },
     st, cfg, hasTLS, altCache)
  else
    -- xtransport.go:860-875: controlled TLS drop (debug knobs)
    let dropRes : FetchOutcome ⊕ (Nat × Option String) :=
      if (st.MaxVersion = VersionTLS13 ∧ Drop13) ∨ (st.MaxVersion = VersionTLS12 ∧ Drop13) then
        match resp with
        | none => Sum.inl (FetchOutcome.crash "nil pointer dereference: resp.TLS on nil response")
        | some r =>
          match r.TLS with
          | some t =>
            if t.Version = VersionTLS13 ∧ Drop13 then
              Sum.inr (t.Version, some "handshake failure")
            else if t.Version = VersionTLS12 ∧ Drop12 then
              Sum.inr (t.Version, some "handshake failure")
            else Sum.inr (t.Version, err1)
          | none => Sum.inr (st.MaxVersion, some "handshake failure")
      else Sum.inr (st.MaxVersion, err1)
    match dropRes with
    | Sum.inl c => (c, st, cfg, hasTLS, altCache)
    | Sum.inr (TLSVersion, err2) =>
      match err2 with
      | some msg =>
        -- xtransport.go:877-953
        let out := handleTLSError st cfg hasTLS resp msg TLSVersion rtt timeout
        (FetchOutcome.ret { body := none, statusCode := 0, tls := none, rtt := 0, err := some msg },
         out.1, out.2.1, out.2.2, altCache)
      | none =>
        -- xtransport.go:956-998: Alt-Svc parsing on success
        let altCache2 : AltCache :=
          if ¬h3_dropped ∧ choice.is_http2 = false ∧ http3Enabled ∧ h3Built
              ∧ ¬choice.hasAltSupport ∧ resp.isSome then
            let skip : Bool :=
              if http3Probe then
                match altFind altCache urlHost with
                | some p => p == 0
                | none => false
              else false
            if skip then altCache
            else
              match resp with
              | some r =>
                match r.altSvc with
                | some alt => altStore altCache urlHost (parseAltSvcHeaders alt 0 (port % 65536))
                | none => altCache
              | none => altCache
          else altCache
        -- xtransport.go:1001-1102: TLS validation and body decoding
        match resp with
        | none =>
          (FetchOutcome.ret
            { body := none, statusCode := 0, tls := none, rtt := 0, err := some "empty response" },
           st, cfg, hasTLS, altCache2)
        | some r =>
          match r.TLS with
          | none =>
            (FetchOutcome.ret
              { body := none, statusCode := 0, tls := none, rtt := 0, err := some "no tls" },
             st, cfg, hasTLS, altCache2)
          | some t =>
            if t.Version = st.MaxVersion then
              if t.Version = VersionTLS13 then
                if goContains tls13SafeStr (toString t.CipherSuite) then
                  fetchBodyDecode r t st cfg hasTLS statusCode rtt compress altCache2 gunzip
                else
                  (FetchOutcome.ret
                    { body := none, statusCode := 0, tls := none, rtt := 0,
                      err := some "unsafe TLS usage with tls version 1.3" },
                   st, cfg, hasTLS, altCache2)
              else if t.Version = VersionTLS12 then
                if goContains tls12SafeStr (toString t.CipherSuite) then
                  let stcfg : TLSPolicy × TLSClientConfig :=
                    if st.tlsCipherSuite = none then
                      if st.CSHandleError = 3 then
                        if ¬is_STAMP then
                          rebuildTransportTLS
                            { st with
                                tlsCipherSuite := some [t.CipherSuite]
                                keepCipherSuite := true
                                CSHandleError := 2 }
                        else (st, cfg)
                      else (st, cfg)
                    else (st, cfg)
                  let hasTLS1 : Int :=
                    if 0 ≤ hasTLS then (if hasTLS < 10 then hasTLS + 1 else hasTLS) else 0
                  fetchBodyDecode r t stcfg.1 stcfg.2 hasTLS1 statusCode rtt compress altCache2 gunzip
                else
                  (FetchOutcome.ret
                    { body := none, statusCode := 0, tls := none, rtt := 0,
                      err := some "unsafe tls Usage" },
                   st, cfg, hasTLS, altCache2)
              else
                (FetchOutcome.ret
                  { body := none, statusCode := 0, tls := none, rtt := 0,
                    err := some "unexpected tls Version" },
                 st, cfg, hasTLS, altCache2)
            else
              (FetchOutcome.ret
                { body := none, statusCode := statusCode, tls := some t, rtt := rtt,
                  err := some "unexpected tls usage" },
               st, cfg, hasTLS, altCache2)

/-- Send-and-fallback phase of `Fetch` (xtransport.go:810-1103): given the
outcome of the first `client.Do` (`firstResp`/`firstErr`/`firstRtt`), the
HTTP/3-failure fallback block (lines 813-843) and then the post-send phase.
`reqTLS` is the `req.TLS` field, which is never populated on client-side
requests; `retryResp`/`retryErr`/`retryRtt` model the outcome of the
HTTP/2 retry `client.Do(req)` when the code reaches it. -/
def fetchTail (st : TLSPolicy) (cfg : TLSClientConfig) (hasTLS : Int)
    (Drop13 Drop12 : Bool)
    (http3Enabled h3Built http3Probe RetryWith2 rebuilding : Bool)
    (choice : ClientChoice)
    (altCache : AltCache) (urlHost : String) (port : Nat)
    (compress is_STAMP : Bool) (timeout : Int)
    (reqTLS : Option TLSConnState)
    (firstResp : Option HTTPResponse) (firstErr : Option String) (firstRtt : Int)
    (retryResp : Option HTTPResponse) (retryErr : Option String) (retryRtt : Int)
    (gunzip : List Nat → Except String (List Nat)) :
    FetchOutcome × TLSPolicy × TLSClientConfig × Int × AltCache :=
  if firstErr.isSome ∧ choice.useH3 ∧ choice.is_http2 = false then
    let altCache1 := altStore altCache urlHost 0
    if RetryWith2 ∧ http3Enabled then
      if rebuilding then
        (FetchOutcome.ret
          { body := none, statusCode := 0, tls := none, rtt := 0,
            err := some "rebuilding transport" },
         st, cfg, hasTLS, altCache1)
      else
        match firstResp with
        | none =>
          (FetchOutcome.crash "nil pointer dereference: resp.TLS read on nil response",
           st, cfg, hasTLS, altCache1)
        | some r =>
          match r.TLS with
          | none =>
            (FetchOutcome.crash "nil pointer dereference: CipherSuite read through nil resp.TLS",
             st, cfg, hasTLS, altCache1)
          | some t =>
            match reqTLS with
            | none =>
              (FetchOutcome.crash "nil pointer dereference: req.TLS on a client-side request",
               st, cfg, hasTLS, altCache1)
            | some q =>
              if q.CipherSuite ≠ 49200 ∧ q.CipherSuite ≠ 49199
                  ∧ t.CipherSuite ≠ 49200 ∧ t.CipherSuite ≠ 49199 then
                fetchAfterSend st cfg hasTLS Drop13 Drop12 http3Enabled h3Built http3Probe
                  choice true altCache1 urlHost port compress is_STAMP timeout
                  retryResp retryErr retryRtt gunzip
              else
                fetchAfterSend st cfg hasTLS Drop13 Drop12 http3Enabled h3Built http3Probe
                  choice false altCache1 urlHost port compress is_STAMP timeout
                  firstResp firstErr firstRtt gunzip
    else
      fetchAfterSend st cfg hasTLS Drop13 Drop12 http3Enabled h3Built http3Probe
        choice false altCache1 urlHost port compress is_STAMP timeout
        firstResp firstErr firstRtt gunzip
  else
    fetchAfterSend st cfg hasTLS Drop13 Drop12 http3Enabled h3Built http3Probe
      choice false altCache urlHost port compress is_STAMP timeout
      firstResp firstErr firstRtt gunzip

/-- Stand-in for the external gzip pipeline in the closed evaluations
below; the evaluated paths all run with `compress = false` and never reach
it. -/
def gzipUnusedModel : List Nat → Except String (List Nat) :=
  fun _ => Except.error "gzip pipeline not exercised"

/-! ## Claim C1: TLS-validation of successful responses -/

def c1Policy : TLSPolicy :=
  { MaxVersion := VersionTLS13, tlsCipherSuite := none, keepCipherSuite := false,
    CSHandleError := 0 }

def c1Config : TLSClientConfig := { MaxVersion := VersionTLS13, CipherSuites := none }

def c1Resp : HTTPResponse :=
  { StatusCode := 200, Status := "200 OK", Proto := "HTTP/2.0",
    TLS := some { Version := VersionTLS13, CipherSuite := 865 },
    contentEncoding := "", altSvc := none, Body := some [0, 1, 2] }

def c1Run : FetchOutcome × TLSPolicy × TLSClientConfig × Int × AltCache :=
  fetchTail c1Policy c1Config 0 false false false false false true false
    (fetchChooseClient false false false [] "doh.example:443" 443)
    [] "doh.example:443" 443 false false 100 none (some c1Resp) none 5 none none 0
    gzipUnusedModel

/-- Claim C1: the negotiated-cipher check of `Fetch` (xtransport.go:1014,
1021) tests `strings.Contains` of the decimal cipher number against the
allow string, not set membership.  A TLS 1.3 response negotiated with
cipher 865 — not a member of `TLS13_SAFE = {4865, 4866, 4868}` — passes
because "865" is a substring of "4865 4866 4868", and `Fetch` returns the
body with no error, where the claim demands an error and no body. -/
theorem fetch_accepts_cipher_outside_tls13_safe :
    (865 : Nat) ∉ ([4865, 4866, 4868] : List Nat) ∧
    c1Resp.TLS = some { Version := VersionTLS13, CipherSuite := 865 } ∧
    c1Policy.MaxVersion = VersionTLS13 ∧
    goContains tls13SafeStr (toString (865 : Nat)) = true ∧
    c1Run.1 = FetchOutcome.ret
      { body := some [0, 1, 2], statusCode := 200,
        tls := some { Version := VersionTLS13, CipherSuite := 865 }, rtt := 5,
        err := none } := by
  decide

/-! ## Claim C2: protocol-consistency check -/

def c2Resp : HTTPResponse :=
  { StatusCode := 200, Status := "200 OK", Proto := "HTTP/2.0",
    TLS := some { Version := VersionTLS13, CipherSuite := 4865 },
    contentEncoding := "", altSvc := none, Body := some [0, 1, 2] }

def c2Choice : ClientChoice := fetchChooseClient true true false [] "doh.example:443" 443

def c2Run : FetchOutcome × TLSPolicy × TLSClientConfig × Int × AltCache :=
  fetchTail c1Policy c1Config 0 false false true true false true false c2Choice
    [] "doh.example:443" 443 false false 100 none (some c2Resp) none 5 none none 0
    gzipUnusedModel

/-- Claim C2: with HTTP/3 enabled, the HTTP/3 client built, `http3_probe`
off and no Alt-Svc cache entry, the selection block leaves the HTTP/2
client in place (`useH3 = false`) but still clears `is_http2`
(xtransport.go:718), and the protocol check (xtransport.go:852) then
rejects the HTTP/2 response of that HTTP/2 client with "request failed:
Protocol miss match" — the claim demands that a Fetch sent over the HTTP/2
client whose response is HTTP/2 does not fail this check. -/
theorem fetch_protocol_check_uses_flag_not_client :
    c2Choice = { useH3 := false, is_http2 := false, hasAltSupport := false } ∧
    goContains c2Resp.Proto "/2" = true ∧
    goContains c2Resp.Proto "/1" = false ∧
    c2Run.1 = FetchOutcome.ret
      { body := none, statusCode := 0, tls := none, rtt := 0,
        err := some "request failed: Protocol miss match" } := by
  decide

/-! ## Claim C5: HTTP/3 failure, negative caching and the HTTP/2 retry -/

def c5Choice : ClientChoice := fetchChooseClient true true true [] "h3.example:443" 443

def c5Run : FetchOutcome × TLSPolicy × TLSClientConfig × Int × AltCache :=
  fetchTail c1Policy c1Config 0 false false true true true true false c5Choice
    [] "h3.example:443" 443 false false 100 none none (some "connection timeout") 5
    none none 0 gzipUnusedModel

/-- Claim C5: after an HTTP/3 request error the Alt-Svc cache entry for the
authority is set to 0 (xtransport.go:824-826), but with `RetryWith2`
enabled the retry path immediately reads `resp.TLS.CipherSuite` from the
nil response of the failed `client.Do` (xtransport.go:834) — and `req.TLS`
is never set on client-side requests either — so the goroutine panics with
a nil-pointer dereference before the HTTP/2 retry is ever issued. -/
theorem fetch_h3_failure_negative_caches_then_crashes :
    c5Choice.useH3 = true ∧
    c5Run.1 = FetchOutcome.crash "nil pointer dereference: resp.TLS read on nil response" ∧
    altFind c5Run.2.2.2.2 "h3.example:443" = some 0 := by
  decide

/-! ## SHA-512 (Go `crypto/sha512.Sum512`, FIPS 180-4) and hex encoding,
used by the body-hash binding of `Fetch` (xtransport.go:751-761) -/

/-- Reduction modulo 2^64 (64-bit word arithmetic). -/
def w64 (x : Nat) : Nat := x % 18446744073709551616

/-- Right rotation of a 64-bit word by `n` bits. -/
def rotr64 (n x : Nat) : Nat := w64 (x / 2 ^ n + x % 2 ^ n * 2 ^ (64 - n))

/-- Logical right shift of a 64-bit word by `n` bits. -/
def shr64 (n x : Nat) : Nat := x / 2 ^ n

def sha512BigSigma0 (x : Nat) : Nat := rotr64 28 x ^^^ rotr64 34 x ^^^ rotr64 39 x

def sha512BigSigma1 (x : Nat) : Nat := rotr64 14 x ^^^ rotr64 18 x ^^^ rotr64 41 x

def sha512SmallSigma0 (x : Nat) : Nat := rotr64 1 x ^^^ rotr64 8 x ^^^ shr64 7 x

def sha512SmallSigma1 (x : Nat) : Nat := rotr64 19 x ^^^ rotr64 61 x ^^^ shr64 6 x

def sha512Ch (e f g : Nat) : Nat := (e &&& f) ^^^ ((18446744073709551615 - e) &&& g)

def sha512Maj (a b c : Nat) : Nat := (a &&& b) ^^^ (a &&& c) ^^^ (b &&& c)

/-- The 80 SHA-512 round constants (first 64 bits of the fractional parts
of the cube roots of the first 80 primes). -/
def sha512K : List Nat := [
  4794697086780616226, 8158064640168781261, 13096744586834688815, 16840607885511220156, 4131703408338449720,
  6480981068601479193, 10538285296894168987, 12329834152419229976, 15566598209576043074, 1334009975649890238,
  2608012711638119052, 6128411473006802146, 8268148722764581231, 9286055187155687089, 11230858885718282805,
  13951009754708518548, 16472876342353939154, 17275323862435702243, 1135362057144423861, 2597628984639134821,
  3308224258029322869, 5365058923640841347, 6679025012923562964, 8573033837759648693, 10970295158949994411,
  12119686244451234320, 12683024718118986047, 13788192230050041572, 14330467153632333762, 15395433587784984357,
  489312712824947311, 1452737877330783856, 2861767655752347644, 3322285676063803686, 5560940570517711597,
  5996557281743188959, 7280758554555802590, 8532644243296465576, 9350256976987008742, 10552545826968843579,
  11727347734174303076, 12113106623233404929, 14000437183269869457, 14369950271660146224, 15101387698204529176,
  15463397548674623760, 17586052441742319658, 1182934255886127544, 1847814050463011016, 2177327727835720531,
  2830643537854262169, 3796741975233480872, 4115178125766777443, 5681478168544905931, 6601373596472566643,
  7507060721942968483, 8399075790359081724, 8693463985226723168, 9568029438360202098, 10144078919501101548,
  10430055236837252648, 11840083180663258601, 13761210420658862357, 14299343276471374635, 14566680578165727644,
  15097957966210449927, 16922976911328602910, 17689382322260857208, 500013540394364858, 748580250866718886,
  1242879168328830382, 1977374033974150939, 2944078676154940804, 3659926193048069267, 4368137639120453308,
  4836135668995329356, 5532061633213252278, 6448918945643986474, 6902733635092675308, 7801388544844847127]

/-- The eight SHA-512 initial hash words. -/
def sha512H0 : List Nat := [
  7640891576956012808, 13503953896175478587, 4354685564936845355, 11912009170470909681,
  5840696475078001361, 11170449401992604703, 2270897969802886507, 6620516959819538809]

/-- Big-endian byte encoding of `v` on `n` bytes. -/
def beBytes : Nat → Nat → List Nat
  | 0, _ => []
  | n + 1, v => beBytes n (v / 256) ++ [v % 256]

/-- SHA-512 message padding: append bit 1, zeros to 112 mod 128, then the
128-bit big-endian bit length. -/
def sha512Pad (msg : List Nat) : List Nat :=
  let k := (240 - (msg.length + 1) % 128) % 128
  msg ++ [128] ++ List.replicate k 0 ++ beBytes 16 (8 * msg.length)

/-- Group bytes into big-endian 64-bit words. -/
def bytesToWords64 : List Nat → List Nat
  | b0 :: b1 :: b2 :: b3 :: b4 :: b5 :: b6 :: b7 :: rest =>
    (((((((b0 * 256 + b1) * 256 + b2) * 256 + b3) * 256 + b4) * 256 + b5) * 256 + b6) * 256 + b7)
      :: bytesToWords64 rest
  | _ => []

/-- Fuelled splitting of a word list into 16-word blocks (each step
shortens the list, so its length is enough fuel; the fuel only makes the
recursion structural so that the kernel can evaluate it). -/
def chunk16F : Nat → List Nat → List (List Nat)
  | 0, _ => []
  | _, [] => []
  | fuel + 1, w :: ws => (w :: ws).take 16 :: chunk16F fuel ((w :: ws).drop 16)

/-- Split a word list into 16-word blocks. -/
def chunk16 (ws : List Nat) : List (List Nat) := chunk16F ws.length ws

/-- Extend the message schedule by one word. -/
def sha512SchedStep (w : List Nat) : List Nat :=
  let l := w.length
  w ++ [w64 (sha512SmallSigma1 (w.getD (l - 2) 0) + w.getD (l - 7) 0 +
    sha512SmallSigma0 (w.getD (l - 15) 0) + w.getD (l - 16) 0)]

def sha512SchedIter : Nat → List Nat → List Nat
  | 0, w => w
  | n + 1, w => sha512SchedIter n (sha512SchedStep w)

/-- The 80-word message schedule of one block. -/
def sha512Schedule (block16 : List Nat) : List Nat := sha512SchedIter 64 block16

/-- One SHA-512 compression round. -/
def sha512Round (st : List Nat) (kt wt : Nat) : List Nat :=
  match st with
  | [a, b, c, d, e, f, g, hh] =>
    let t1 := w64 (hh + sha512BigSigma1 e + sha512Ch e f g + kt + wt)
    let t2 := w64 (sha512BigSigma0 a + sha512Maj a b c)
    [w64 (t1 + t2), a, b, c, w64 (d + t1), e, f, g]
  | other => other

/-- Compress one 16-word block into the running hash. -/
def sha512Compress (h : List Nat) (block16 : List Nat) : List Nat :=
  let w := sha512Schedule block16
  let fin := ((sha512K.zip w).foldl (fun st kw => sha512Round st kw.1 kw.2) h)
  List.zipWith (fun x y => w64 (x + y)) h fin

/-- SHA-512 digest as eight 64-bit words. -/
def sha512Words (msg : List Nat) : List Nat :=
  (chunk16 (bytesToWords64 (sha512Pad msg))).foldl sha512Compress sha512H0

/-- Go `sha512.Sum512`: the 64-byte SHA-512 digest of a byte sequence. -/
def sha512Bytes (msg : List Nat) : List Nat :=
  (sha512Words msg).foldr (fun wd acc => beBytes 8 wd ++ acc) []

/-- Lower-case hexadecimal digit. -/
def hexDigit (n : Nat) : Char :=
  if n < 10 then Char.ofNat (48 + n) else Char.ofNat (87 + n)

/-- Go `hex.EncodeToString`. -/
def hexEncode (bytes : List Nat) : String :=
  String.mk (bytes.foldr (fun b acc => hexDigit (b / 16) :: hexDigit (b % 16) :: acc) [])

/-! ## Claim C8: body-hash binding and Content-Length
(xtransport.go lines 742-804) -/

/-- Go `url.Values` (`map[string][]string`) as a function from key to the
ordered value list. -/
abbrev URLValues := String → List String

/-- Go `url.Values.Has(key)`. -/
def valuesHas (q : URLValues) (k : String) : Bool := !(q k).isEmpty

/-- Go `url.Values.Set(key, value)`: replace all values of the key. -/
def valuesSet (q : URLValues) (k v : String) : URLValues :=
  fun k1 => if k1 = k then [v] else q k1

/-- Go `url.Values.Add(key, value)`: append to the values of the key. -/
def valuesAdd (q : URLValues) (k v : String) : URLValues :=
  fun k1 => if k1 = k then q k1 ++ [v] else q k1

/-- The `body_hash` value `hex.EncodeToString(h[:32])` for
`h := sha512.Sum512(*body)` (xtransport.go:752-757). -/
def bodyHashHex (b : List Nat) : String := hexEncode ((sha512Bytes b).take 32)

/-- Body-hash query rewriting of `Fetch` (xtransport.go:751-764): with a
non-nil body, set or add `body_hash`; the returned multimap is the query of
the URL actually dispatched (`url2`). -/
def fetchURLQuery (q : URLValues) (body : Option (List Nat)) : URLValues :=
  match body with
  | some b =>
    if valuesHas q "body_hash" then valuesSet q "body_hash" (bodyHashHex b)
    else valuesAdd q "body_hash" (bodyHashHex b)
  | none => q

/-- The fields of the `http.Request` built by `Fetch` that the claims
observe. -/
structure ReqModel where
  Method : String
  query : URLValues
  ContentLength : Int
  hasBody : Bool

/-- Request construction of `Fetch` (xtransport.go:751-804): the body-hash
query rewriting followed by the body-size and method checks; `.ok` is a
request actually submitted to `client.Do`. -/
def fetchBuildRequest (method : String) (q : URLValues)
    (body : Option (List Nat)) : Except String ReqModel :=
  let q1 := fetchURLQuery q body
  match body with
  | some b =>
    if (b.length : Int) ≤ (MaxDNSPacketSize : Int) then
      if 0 < (b.length : Int) ∧ (b.length : Int) = (b.length : Int) then
        Except.ok { Method := method, query := q1, ContentLength := b.length, hasBody := true }
      else Except.error "request failed: Incorrect request size"
    else Except.error "request is bigger than allowed dns packet size"
  | none =>
    if method = "POST" then Except.error "request failed: Empty body"
    else Except.ok { Method := method, query := q1, ContentLength := 0, hasBody := false }

/-- Claim C8: every POST `Fetch` with a non-nil body `b` that builds a
request (and hence dispatches a URL) carries the query parameter
`body_hash` whose sole value is the hex encoding of the first 32 bytes of
SHA-512(b), and its Content-Length equals `len(b)`. -/
theorem fetch_post_body_hash (q : URLValues) (b : List Nat) (req : ReqModel)
    (h : fetchBuildRequest "POST" q (some b) = Except.ok req) :
    req.query "body_hash" = [hexEncode ((sha512Bytes b).take 32)] ∧
    req.ContentLength = (b.length : Int) := by
  simp only [fetchBuildRequest] at h
  by_cases hle : (b.length : Int) ≤ (MaxDNSPacketSize : Int)
  · rw [if_pos hle] at h
    by_cases hpos : (0 : Int) < (b.length : Int)
    · rw [if_pos (show (0 : Int) < (b.length : Int) ∧ True from ⟨hpos, trivial⟩)] at h
      simp only [Except.ok.injEq] at h
      subst h
      refine ⟨?_, rfl⟩
      simp only [fetchURLQuery, bodyHashHex]
      by_cases hhas : valuesHas q "body_hash"
      · simp only [hhas, if_true, valuesSet, if_pos rfl]
      · simp only [hhas, Bool.false_eq_true, if_false, valuesAdd, if_pos rfl]
        have hq : q "body_hash" = [] := by
          unfold valuesHas at hhas
          simp only [Bool.not_eq_true, Bool.not_eq_false] at hhas
          exact List.isEmpty_iff.mp (by simpa using hhas)
        rw [hq]
        rfl
    · rw [if_neg (fun hc => hpos hc.1)] at h
      exact Except.noConfusion h
  · rw [if_neg hle] at h
    exact Except.noConfusion h

def c8Req : ReqModel :=
  { Method := "POST", query := fetchURLQuery (fun _ => []) (some [0, 1, 2]),
    ContentLength := 3, hasBody := true }

set_option maxRecDepth 8000 in
theorem fetch_post_body_hash_witness :
    c8Req.query "body_hash" = [hexEncode ((sha512Bytes [0, 1, 2]).take 32)] ∧
    c8Req.ContentLength = (([0, 1, 2] : List Nat).length : Int) :=
  fetch_post_body_hash (fun _ => []) [0, 1, 2] c8Req rfl

/-! ## Claim C9: base64url `dns` parameter of GET DoH queries
(xtransport.go lines 1132-1157) -/

/-- The base64url alphabet (RFC 4648 section 5), used by Go
`base64.RawURLEncoding`. -/
def b64Chars : List Char :=
  "ABCDEFGHIJKLMNOPQRSTUVWXYZabcdefghijklmnopqrstuvwxyz0123456789-_".toList

/-- Character for a sextet value. -/
def b64Char (v : Nat) : Char := b64Chars.getD v 'A'

/-- Go `base64.RawURLEncoding.EncodeToString`: unpadded base64url encoding
of a byte sequence, three bytes to four characters with a 2- or 3-character
final group. -/
def b64EncodeList : List Nat → List Char
  | [] => []
  | [b1] => [b64Char (b1 / 4), b64Char (b1 % 4 * 16)]
  | [b1, b2] => [b64Char (b1 / 4), b64Char (b1 % 4 * 16 + b2 / 16), b64Char (b2 % 16 * 4)]
  | b1 :: b2 :: b3 :: rest =>
    b64Char (b1 / 4) :: b64Char (b1 % 4 * 16 + b2 / 16) ::
      b64Char (b2 % 16 * 4 + b3 / 64) :: b64Char (b3 % 64) :: b64EncodeList rest

/-- Sextet value of an alphabet character. -/
def b64Val (c : Char) : Nat := b64Chars.indexOf c

/-- Modelled from the spec: unpadded base64url decoding ("decoded with
unpadded base64url", RFC 4648 section 5) on sextet values, four characters
to three bytes with 2- or 3-character final groups. -/
def b64DecodeVals : List Nat → List Nat
  | [] => []
  | [_] => []
  | [v1, v2] => [v1 * 4 + v2 / 16]
  | [v1, v2, v3] => [v1 * 4 + v2 / 16, v2 % 16 * 16 + v3 / 4]
  | v1 :: v2 :: v3 :: v4 :: rest =>
    (v1 * 4 + v2 / 16) :: (v2 % 16 * 16 + v3 / 4) :: (v3 % 4 * 64 + v4) ::
      b64DecodeVals rest

/-- Modelled from the spec: unpadded base64url decoding of a string. -/
def b64Decode (s : String) : List Nat := b64DecodeVals (s.toList.map b64Val)

theorem b64Val_b64Char : ∀ v : Nat, v < 64 → b64Val (b64Char v) = v := by decide

/-- Round trip: decoding the base64url encoding of a byte sequence yields
the sequence back. -/
theorem b64_roundtrip : ∀ l : List Nat, (∀ b ∈ l, b < 256) →
    b64DecodeVals ((b64EncodeList l).map b64Val) = l := by
  intro l
  induction l using b64EncodeList.induct with
  | case1 => intro _; rfl
  | case2 b1 =>
    intro hb
    have h1 : b1 < 256 := hb b1 (by simp)
    simp only [b64EncodeList, List.map, b64Val_b64Char (b1 / 4) (by omega),
      b64Val_b64Char (b1 % 4 * 16) (by omega), b64DecodeVals]
    congr 1
    omega
  | case3 b1 b2 =>
    intro hb
    have h1 : b1 < 256 := hb b1 (by simp)
    have h2 : b2 < 256 := hb b2 (by simp)
    simp only [b64EncodeList, List.map, b64Val_b64Char (b1 / 4) (by omega),
      b64Val_b64Char (b1 % 4 * 16 + b2 / 16) (by omega),
      b64Val_b64Char (b2 % 16 * 4) (by omega), b64DecodeVals]
    congr 1
    · omega
    · congr 1
      omega
  | case4 b1 b2 b3 rest ih =>
    intro hb
    have h1 : b1 < 256 := hb b1 (by simp)
    have h2 : b2 < 256 := hb b2 (by simp)
    have h3 : b3 < 256 := hb b3 (by simp)
    have hrest : ∀ b ∈ rest, b < 256 := fun b hbm => hb b (by simp [hbm])
    simp only [b64EncodeList, List.map, b64Val_b64Char (b1 / 4) (by omega),
      b64Val_b64Char (b1 % 4 * 16 + b2 / 16) (by omega),
      b64Val_b64Char (b2 % 16 * 4 + b3 / 64) (by omega),
      b64Val_b64Char (b3 % 64) (by omega), b64DecodeVals, ih hrest]
    simp only [List.cons.injEq]
    refine ⟨by omega, by omega, by omega, trivial⟩

/-- Query rewriting and body selection of `dohLikeQuery`
(xtransport.go:1132-1148): with `useGet`, add the base64url-encoded body as
the `dns` query parameter of the dispatched URL and issue a GET with nil
body; otherwise POST the body unchanged.  Returns the content type, the
dispatched query and the dispatched body. -/
def dohLikeQuery (dataType : String) (useGet : Bool) (q : URLValues)
    (body : List Nat) : String × URLValues × Option (List Nat) :=
  if useGet then
    (dataType, valuesAdd q "dns" (String.mk (b64EncodeList body)), none)
  else (dataType, q, some body)

/-- Method `DoHQuery` (xtransport.go:1150-1157). -/
def DoHQuery (useGet : Bool) (q : URLValues) (body : List Nat) :
    String × URLValues × Option (List Nat) :=
  dohLikeQuery "application/dns-message" useGet q body

/-- Claim C9: for every byte sequence `b` with `len(b) ≤ MaxDNSPacketSize`,
`DoHQuery(use_get = true, url, b, t)` issues a GET whose URL's `dns` query
parameter (the value appended to the query) decodes, with unpadded
base64url, exactly to `b`. -/
theorem dohQuery_get_dns_roundtrip (q : URLValues) (b : List Nat)
    (hlen : b.length ≤ MaxDNSPacketSize) (hbytes : ∀ x ∈ b, x < 256) :
    (DoHQuery true q b).2.1 "dns" = q "dns" ++ [String.mk (b64EncodeList b)] ∧
    b64Decode (String.mk (b64EncodeList b)) = b := by
  constructor
  · simp [DoHQuery, dohLikeQuery, valuesAdd]
  · unfold b64Decode
    have hml : (String.mk (b64EncodeList b)).toList = b64EncodeList b := rfl
    rw [hml]
    exact b64_roundtrip b hbytes

theorem dohQuery_get_dns_roundtrip_witness :
    (DoHQuery true (fun _ => []) [0, 1, 2]).2.1 "dns"
      = (fun _ => ([] : List String)) "dns" ++ [String.mk (b64EncodeList [0, 1, 2])] ∧
    b64Decode (String.mk (b64EncodeList [0, 1, 2])) = [0, 1, 2] :=
  dohQuery_get_dns_roundtrip (fun _ => []) [0, 1, 2] (by decide) (by decide)
